/-
  Formal model of the 2Dshooter combat core.

  Shallow embedding of the damage model, projectile system, weapon system and
  entity damage application of the repository (damage_calculator.py,
  projectile_manager.py, universal_cannon.py, weapons_database.py,
  v0.01/ship/ship_base.py, v0.01/ship/breacher_ship.py,
  v0.01/entity/enemy/enemy_manager.py).  Python floats are modelled as real
  numbers; Python ints as integers; `random(...)` calls are modelled as
  explicit oracle parameters; dict-shaped records become structures with the
  keys the code actually reads.
-/
import Mathlib

noncomputable section

open Classical

/-- TNT equivalent energy per kilogram of explosive
(damage_calculator.py, `EXPLOSIVE_JOULES_PER_KG = 4184000`). -/
def EXPLOSIVE_JOULES_PER_KG : ℝ := 4184000

/-- Default proximity fuse radius (damage_calculator.py, `PROXIMITY_FUSE_RADIUS = 20`).
The Python `check_proximity_trigger` substitutes this when its `fuse_radius`
argument is `None`; callers in the repository always pass an explicit radius. -/
def PROXIMITY_FUSE_RADIUS : ℝ := 20

/-- Python `int(x)` conversion of a float: truncation toward zero. -/
def pyInt (x : ℝ) : ℤ := if 0 ≤ x then ⌊x⌋ else ⌈x⌉

/-- Python `int(x)` reinjected into float arithmetic. -/
def pyIntR (x : ℝ) : ℝ := (pyInt x : ℝ)

/-- DamageCalculator.calculate_distance: `math.hypot(pos1[0]-pos2[0], pos1[1]-pos2[1])`. -/
def calculate_distance (pos1 pos2 : ℝ × ℝ) : ℝ :=
  Real.sqrt ((pos1.1 - pos2.1) ^ 2 + (pos1.2 - pos2.2) ^ 2)

/-- Warhead data dict as produced by DamageCalculator.create_warhead_data_from_db
and consumed by calculate_explosion_damage.  All keys read by the code are
present (the `.get` fallbacks for `diameter_mm`, `length_mm` and `shrapnel_kg`
never fire on warheads built by `create_warhead_data_from_db`). -/
structure WarheadData where
  explosive_kg : ℝ
  shrapnel_percent : ℝ
  total_mass : ℝ
  velocity : ℝ
  diameter_mm : ℝ
  length_mm : ℝ
  shrapnel_kg : ℝ

/-- Maximum damage radius computed at the top of
DamageCalculator.calculate_explosion_damage:
`base_radius * (diameter_m / 0.05) ** 0.5 * (explosive_kg / 0.5) ** 0.3`
with `base_radius = 50` and `diameter_m = diameter_mm / 1000`. -/
def max_damage_radius (w : WarheadData) : ℝ :=
  let diameter_m := w.diameter_mm / 1000
  let base_radius : ℝ := 50
  let diameter_factor := (diameter_m / 0.05) ^ (0.5 : ℝ)
  let explosive_factor := (w.explosive_kg / 0.5) ^ (0.3 : ℝ)
  base_radius * diameter_factor * explosive_factor

/-- DamageCalculator._calculate_pressure_damage. -/
def calculate_pressure_damage (explosive_joules distance0 diameter_m : ℝ) : ℝ :=
  let distance := if distance0 ≤ 0 then 0.1 else distance0
  let diameter_efficiency := min 2 ((diameter_m / 0.05) ^ (0.2 : ℝ))
  let available_energy := explosive_joules * diameter_efficiency
  let effective_distance := max 1 (distance / diameter_efficiency)
  let falloff := 1 / effective_distance ^ 2
  available_energy * falloff

/-- DamageCalculator._calculate_fragment_count. -/
def calculate_fragment_count (shrapnel_mass diameter_mm length_mm : ℝ) : ℤ :=
  let diameter_m := diameter_mm / 1000
  let length_m := length_mm / 1000
  let cylindrical_area := Real.pi * diameter_m * length_m
  let end_caps_area := 2 * Real.pi * (diameter_m / 2) ^ 2
  let total_surface_area := cylindrical_area + end_caps_area
  let fragments_per_m2 : ℝ := 3000
  let base_fragment_count := total_surface_area * fragments_per_m2
  let min_fragment_mass : ℝ := 0.0005
  let max_fragments_by_mass := shrapnel_mass / min_fragment_mass
  let aspect_ratio := length_m / diameter_m
  let fragmentation_efficiency : ℝ :=
    if aspect_ratio > 3 then 0.8 else if aspect_ratio < 1.5 then 1.2 else 1.0
  let fragment_count := min (base_fragment_count * fragmentation_efficiency) max_fragments_by_mass
  max 1 (pyInt fragment_count)

/-- DamageCalculator._calculate_shrapnel_damage.  The `warhead_data.get("shrapnel_kg", ...)`
lookup resolves to the `shrapnel_kg` field, which is always present. -/
def calculate_shrapnel_damage (w : WarheadData) (distance0 _diameter_m : ℝ) : ℝ :=
  let distance := if distance0 ≤ 0 then 0.1 else distance0
  let fragment_count := calculate_fragment_count w.shrapnel_kg w.diameter_mm w.length_mm
  let fragment_mass := if fragment_count > 0 then w.shrapnel_kg / (fragment_count : ℝ) else 0
  let diameter_factor := w.diameter_mm / 50
  let velocity_spread := 0.3 * diameter_factor
  let min_velocity := w.velocity * (1 - velocity_spread)
  let max_velocity := w.velocity * (1 + velocity_spread)
  let avg_fragment_velocity := (min_velocity + max_velocity) / 2
  let kinetic_energy_per_fragment := 0.5 * fragment_mass * avg_fragment_velocity ^ 2
  let total_kinetic_energy := kinetic_energy_per_fragment * (fragment_count : ℝ)
  let base_range : ℝ := 60
  let dispersion_factor := (w.diameter_mm / 50) ^ (0.5 : ℝ)
  let energy_factor := (total_kinetic_energy / 1000000) ^ (0.2 : ℝ)
  let max_shrapnel_range := base_range * dispersion_factor * energy_factor
  if distance > max_shrapnel_range then 0
  else
    let falloff := max 0 ((max_shrapnel_range - distance) / max_shrapnel_range)
    let hit_probability := min 1 (((fragment_count : ℝ) / 1000) * falloff ^ (0.5 : ℝ))
    total_kinetic_energy * hit_probability * falloff

/-- DamageCalculator.calculate_explosion_damage: zero beyond `max_damage_radius`,
otherwise pressure-wave plus shrapnel energy, floored at zero. -/
def calculate_explosion_damage (explosion_center target_pos : ℝ × ℝ) (w : WarheadData) : ℝ :=
  if calculate_distance explosion_center target_pos > max_damage_radius w then 0
  else
    let distance := calculate_distance explosion_center target_pos
    let diameter_m := w.diameter_mm / 1000
    let explosive_joules := w.explosive_kg * EXPLOSIVE_JOULES_PER_KG
    let pressure_damage := calculate_pressure_damage explosive_joules distance diameter_m
    let shrapnel_damage := calculate_shrapnel_damage w distance diameter_m
    max 0 (pressure_damage + shrapnel_damage)

/-- C2: for every warhead and every pair of positions, calculate_explosion_damage
returns 0 whenever the distance between the explosion center and the target
exceeds the warhead's max_damage_radius (the radius derived from explosive mass
and diameter inside the same function). -/
theorem C2_explosion_zero_beyond_radius (center target : ℝ × ℝ) (w : WarheadData)
    (h : calculate_distance center target > max_damage_radius w) :
    calculate_explosion_damage center target w = 0 := by
  unfold calculate_explosion_damage
  rw [if_pos h]

/-- Witness for C2: a warhead with 50 mm diameter and 0.5 kg of explosive has
max damage radius exactly 50, and a target at distance 100 receives 0 joules. -/
theorem C2_explosion_zero_beyond_radius_witness :
    calculate_explosion_damage (0, 0) (100, 0)
      { explosive_kg := 0.5, shrapnel_percent := 0.25, total_mass := 2,
        velocity := 220, diameter_mm := 50, length_mm := 100, shrapnel_kg := 0.5 } = 0 := by
  apply C2_explosion_zero_beyond_radius
  have hd : calculate_distance (0, 0) (100, 0) = 100 := by
    unfold calculate_distance
    have h1 : (((0 : ℝ), (0 : ℝ)).1 - ((100 : ℝ), (0 : ℝ)).1) ^ 2 +
        (((0 : ℝ), (0 : ℝ)).2 - ((100 : ℝ), (0 : ℝ)).2) ^ 2 = 100 ^ 2 := by norm_num
    rw [h1, Real.sqrt_sq (by norm_num : (0 : ℝ) ≤ 100)]
  have hr : max_damage_radius
      { explosive_kg := 0.5, shrapnel_percent := 0.25, total_mass := 2,
        velocity := 220, diameter_mm := 50, length_mm := 100, shrapnel_kg := 0.5 } = 50 := by
    unfold max_damage_radius
    have h2 : ((50 : ℝ) / 1000) / 0.05 = 1 := by norm_num
    have h3 : ((0.5 : ℝ) / 0.5) = 1 := by norm_num
    simp only [h2, h3, Real.one_rpow]
    norm_num
  rw [hd, hr]
  norm_num

/-- One pass of the closest-target loops inside
DamageCalculator.check_proximity_trigger.  `key t` is the distance the loop
compares (`distance` for the current-position pass, `next_dist` for the
predictive pass); `gate t` is that pass's trigger condition; the accumulator
is the running `(closest_distance, closest_target)` pair, with `none` standing
for the initial `(float('inf'), None)` — any real key beats `none`. -/
def scanBy (key : ℝ × ℝ → ℝ) (gate : ℝ × ℝ → Prop) :
    List (ℝ × ℝ) → Option (ℝ × (ℝ × ℝ)) → Option (ℝ × (ℝ × ℝ))
  | [], acc => acc
  | t :: rest, acc =>
    let better : Prop :=
      match acc with
      | none => True
      | some (cd, _) => key t < cd
    scanBy key gate rest (if gate t ∧ better then some (key t, t) else acc)

theorem scanBy_eq_none (key : ℝ × ℝ → ℝ) (gate : ℝ × ℝ → Prop) :
    ∀ (l : List (ℝ × ℝ)) (acc : Option (ℝ × (ℝ × ℝ))),
      scanBy key gate l acc = none ↔ acc = none ∧ ∀ t ∈ l, ¬ gate t := by
  intro l
  induction l with
  | nil => intro acc; simp [scanBy]
  | cons t rest ih =>
    intro acc
    simp only [scanBy]
    rw [ih]
    cases acc with
    | none =>
      by_cases hg : gate t
      · simp [hg]
      · simp [hg]
    | some p =>
      by_cases hcond : gate t ∧ key t < p.1
      · constructor
        · rintro ⟨h1, -⟩
          rw [if_pos (by exact ⟨hcond.1, hcond.2⟩)] at h1
          exact absurd h1 (by simp)
        · rintro ⟨h1, -⟩
          exact absurd h1 (by simp)
      · constructor
        · rintro ⟨h1, -⟩
          rw [if_neg (by exact fun hh => hcond ⟨hh.1, hh.2⟩)] at h1
          exact absurd h1 (by simp)
        · rintro ⟨h1, -⟩
          exact absurd h1 (by simp)

theorem scanBy_mem (key : ℝ × ℝ → ℝ) (gate : ℝ × ℝ → Prop) :
    ∀ (l : List (ℝ × ℝ)) (acc : Option (ℝ × (ℝ × ℝ))) (d : ℝ) (t : ℝ × ℝ),
      scanBy key gate l acc = some (d, t) →
      acc = some (d, t) ∨ (t ∈ l ∧ d = key t ∧ gate t) := by
  intro l
  induction l with
  | nil => intro acc d t h; exact Or.inl h
  | cons u rest ih =>
    intro acc d t h
    simp only [scanBy] at h
    rcases ih _ d t h with h1 | h1
    · split_ifs at h1 with hcond
      · simp only [Option.some.injEq, Prod.mk.injEq] at h1
        obtain ⟨hd, ht⟩ := h1
        subst ht
        subst hd
        exact Or.inr ⟨List.mem_cons_self u rest, rfl, hcond.1⟩
      · exact Or.inl h1
    · exact Or.inr ⟨List.mem_cons_of_mem u h1.1, h1.2.1, h1.2.2⟩

theorem scanBy_le (key : ℝ × ℝ → ℝ) (gate : ℝ × ℝ → Prop) :
    ∀ (l : List (ℝ × ℝ)) (d0 : ℝ) (t0 : ℝ × ℝ) (d : ℝ) (t : ℝ × ℝ),
      scanBy key gate l (some (d0, t0)) = some (d, t) → d ≤ d0 := by
  intro l
  induction l with
  | nil =>
    intro d0 t0 d t h
    simp only [scanBy] at h
    injection h with h2
    exact le_of_eq (congrArg Prod.fst h2).symm
  | cons u rest ih =>
    intro d0 t0 d t h
    simp only [scanBy] at h
    by_cases hcond : gate u ∧ key u < d0
    · rw [if_pos hcond] at h
      exact le_of_lt (lt_of_le_of_lt (ih _ _ d t h) hcond.2)
    · rw [if_neg hcond] at h
      exact ih _ _ d t h

theorem scanBy_min (key : ℝ × ℝ → ℝ) (gate : ℝ × ℝ → Prop) :
    ∀ (l : List (ℝ × ℝ)) (acc : Option (ℝ × (ℝ × ℝ))) (d : ℝ) (t : ℝ × ℝ),
      scanBy key gate l acc = some (d, t) →
      ∀ u ∈ l, gate u → d ≤ key u := by
  intro l
  induction l with
  | nil => intro acc d t _ u hu; exact absurd hu (List.not_mem_nil u)
  | cons u0 rest ih =>
    intro acc d t h u hu hg
    simp only [scanBy] at h
    rcases List.mem_cons.mp hu with rfl | hmem
    · cases acc with
      | none =>
        rw [if_pos ⟨hg, trivial⟩] at h
        exact scanBy_le key gate rest _ _ d t h
      | some p =>
        by_cases hlt : key u < p.1
        · rw [if_pos ⟨hg, hlt⟩] at h
          exact scanBy_le key gate rest _ _ d t h
        · rw [if_neg (fun hh => hlt hh.2)] at h
          exact le_trans (scanBy_le key gate rest _ _ d t (by rw [show p = (p.1, p.2) from rfl] at h; exact h))
            (le_of_not_lt hlt)
    · exact ih _ d t h u hmem hg

/-- Predicted position used by the predictive pass of check_proximity_trigger:
`position + velocity * delta_time`, componentwise. -/
def predicted_pos (pos vel : ℝ × ℝ) (delta_time : ℝ) : ℝ × ℝ :=
  (pos.1 + vel.1 * delta_time, pos.2 + vel.2 * delta_time)

/-- Closest-target accumulator value at the end of
DamageCalculator.check_proximity_trigger: the current-position pass runs first;
the predictive pass runs only when it found nothing and `delta_time > 0`. -/
def proximity_closest (projectile_pos projectile_velocity : ℝ × ℝ)
    (targets : List (ℝ × ℝ)) (fuse_radius delta_time : ℝ) : Option (ℝ × (ℝ × ℝ)) :=
  let current := scanBy (fun t => calculate_distance projectile_pos t)
    (fun t => calculate_distance projectile_pos t ≤ fuse_radius) targets none
  if current = none ∧ delta_time > 0 then
    let next_pos := predicted_pos projectile_pos projectile_velocity delta_time
    scanBy (fun t => calculate_distance next_pos t)
      (fun t => calculate_distance next_pos t ≤ fuse_radius ∧
        calculate_distance next_pos t < calculate_distance projectile_pos t)
      targets none
  else current

/-- DamageCalculator.check_proximity_trigger: returns
`(closest_target is not None, closest_target)`. -/
def check_proximity_trigger (projectile_pos projectile_velocity : ℝ × ℝ)
    (targets : List (ℝ × ℝ)) (fuse_radius delta_time : ℝ) : Bool × Option (ℝ × ℝ) :=
  ((proximity_closest projectile_pos projectile_velocity targets fuse_radius delta_time).isSome,
   (proximity_closest projectile_pos projectile_velocity targets fuse_radius delta_time).map
     (fun p => p.2))

/-- C9: check_proximity_trigger returns true with the nearest such target
whenever some target is currently within fuse_radius of the projectile
position; otherwise, when delta_time > 0, it performs one predictive check of
position + velocity*delta_time against the same radius (picking the target of
smallest predicted distance); and it returns false when neither check finds a
target within the radius. -/
theorem C9_check_proximity_trigger_spec (pos vel : ℝ × ℝ) (targets : List (ℝ × ℝ)) (r dt : ℝ) :
    ((∃ t ∈ targets, calculate_distance pos t ≤ r) →
      (check_proximity_trigger pos vel targets r dt).1 = true ∧
      ∃ t ∈ targets, (check_proximity_trigger pos vel targets r dt).2 = some t ∧
        calculate_distance pos t ≤ r ∧
        ∀ u ∈ targets, calculate_distance pos u ≤ r →
          calculate_distance pos t ≤ calculate_distance pos u) ∧
    ((∀ t ∈ targets, ¬ calculate_distance pos t ≤ r) → 0 < dt →
      (∃ t ∈ targets, calculate_distance (predicted_pos pos vel dt) t ≤ r) →
      (check_proximity_trigger pos vel targets r dt).1 = true ∧
      ∃ t ∈ targets, (check_proximity_trigger pos vel targets r dt).2 = some t ∧
        calculate_distance (predicted_pos pos vel dt) t ≤ r ∧
        ∀ u ∈ targets, calculate_distance (predicted_pos pos vel dt) u ≤ r →
          calculate_distance (predicted_pos pos vel dt) t ≤
            calculate_distance (predicted_pos pos vel dt) u) ∧
    ((∀ t ∈ targets, ¬ calculate_distance pos t ≤ r) →
      (dt ≤ 0 ∨ ∀ t ∈ targets, ¬ calculate_distance (predicted_pos pos vel dt) t ≤ r) →
      check_proximity_trigger pos vel targets r dt = (false, none)) := by
  refine ⟨?_, ?_, ?_⟩
  · rintro ⟨t0, ht0, hd0⟩
    have hne : scanBy (fun t => calculate_distance pos t)
        (fun t => calculate_distance pos t ≤ r) targets none ≠ none := by
      intro hnone
      exact ((scanBy_eq_none _ _ targets none).mp hnone).2 t0 ht0 hd0
    obtain ⟨p, hp⟩ := Option.ne_none_iff_exists'.mp hne
    obtain ⟨d, t1⟩ := p
    have hclosest : proximity_closest pos vel targets r dt = some (d, t1) := by
      simp only [proximity_closest]
      rw [if_neg (by rintro ⟨h1, -⟩; exact hne h1)]
      exact hp
    have hmem := scanBy_mem (fun t => calculate_distance pos t)
      (fun t => calculate_distance pos t ≤ r) targets none d t1 hp
    rcases hmem with hbad | ⟨hmem1, hmem2, hmem3⟩
    · exact absurd hbad (by simp)
    have hmin := scanBy_min (fun t => calculate_distance pos t)
      (fun t => calculate_distance pos t ≤ r) targets none d t1 hp
    refine ⟨?_, t1, hmem1, ?_, hmem3, ?_⟩
    · simp [check_proximity_trigger, hclosest]
    · simp [check_proximity_trigger, hclosest]
    · intro u hu hur
      calc calculate_distance pos t1 = d := hmem2.symm
        _ ≤ calculate_distance pos u := hmin u hu hur
  · intro hall hdt hex
    have hcur : scanBy (fun t => calculate_distance pos t)
        (fun t => calculate_distance pos t ≤ r) targets none = none :=
      (scanBy_eq_none _ _ targets none).mpr ⟨rfl, hall⟩
    have hne : scanBy (fun t => calculate_distance (predicted_pos pos vel dt) t)
        (fun t => calculate_distance (predicted_pos pos vel dt) t ≤ r ∧
          calculate_distance (predicted_pos pos vel dt) t < calculate_distance pos t)
        targets none ≠ none := by
      intro hnone
      obtain ⟨t0, ht0, hN0⟩ := hex
      exact ((scanBy_eq_none _ _ targets none).mp hnone).2 t0 ht0
        ⟨hN0, lt_of_le_of_lt hN0 (not_le.mp (hall t0 ht0))⟩
    obtain ⟨p, hp⟩ := Option.ne_none_iff_exists'.mp hne
    obtain ⟨d, t1⟩ := p
    have hclosest : proximity_closest pos vel targets r dt = some (d, t1) := by
      simp only [proximity_closest]
      rw [if_pos ⟨hcur, hdt⟩]
      exact hp
    have hmem := scanBy_mem (fun t => calculate_distance (predicted_pos pos vel dt) t)
      (fun t => calculate_distance (predicted_pos pos vel dt) t ≤ r ∧
        calculate_distance (predicted_pos pos vel dt) t < calculate_distance pos t)
      targets none d t1 hp
    rcases hmem with hbad | ⟨hmem1, hmem2, hmem3, -⟩
    · exact absurd hbad (by simp)
    have hmin := scanBy_min (fun t => calculate_distance (predicted_pos pos vel dt) t)
      (fun t => calculate_distance (predicted_pos pos vel dt) t ≤ r ∧
        calculate_distance (predicted_pos pos vel dt) t < calculate_distance pos t)
      targets none d t1 hp
    refine ⟨?_, t1, hmem1, ?_, hmem3, ?_⟩
    · simp [check_proximity_trigger, hclosest]
    · simp [check_proximity_trigger, hclosest]
    · intro u hu hur
      calc calculate_distance (predicted_pos pos vel dt) t1 = d := hmem2.symm
        _ ≤ calculate_distance (predicted_pos pos vel dt) u :=
          hmin u hu ⟨hur, lt_of_le_of_lt hur (not_le.mp (hall u hu))⟩
  · intro hall hor
    have hcur : scanBy (fun t => calculate_distance pos t)
        (fun t => calculate_distance pos t ≤ r) targets none = none :=
      (scanBy_eq_none _ _ targets none).mpr ⟨rfl, hall⟩
    have hclosest : proximity_closest pos vel targets r dt = none := by
      simp only [proximity_closest]
      by_cases hdt : 0 < dt
      · rcases hor with hle | hNall
        · exact absurd hdt (not_lt.mpr hle)
        · rw [if_pos ⟨hcur, hdt⟩]
          exact (scanBy_eq_none _ _ targets none).mpr ⟨rfl, fun t ht hg => hNall t ht hg.1⟩
      · rw [if_neg (by rintro ⟨-, h2⟩; exact hdt h2)]
        exact hcur
    simp [check_proximity_trigger, hclosest]

/-- Witness for C9: a projectile at the origin with a single target at (3, 4)
and fuse radius 5 triggers on the current-position check. -/
theorem C9_check_proximity_trigger_witness :
    (check_proximity_trigger (0, 0) (0, 0) [(3, 4)] 5 0).1 = true := by
  have hd : calculate_distance ((0 : ℝ), (0 : ℝ)) ((3 : ℝ), (4 : ℝ)) = 5 := by
    unfold calculate_distance
    have h1 : (((0 : ℝ), (0 : ℝ)).1 - ((3 : ℝ), (4 : ℝ)).1) ^ 2 +
        (((0 : ℝ), (0 : ℝ)).2 - ((3 : ℝ), (4 : ℝ)).2) ^ 2 = 5 ^ 2 := by norm_num
    rw [h1, Real.sqrt_sq (by norm_num : (0 : ℝ) ≤ 5)]
  exact ((C9_check_proximity_trigger_spec (0, 0) (0, 0) [(3, 4)] 5 0).1
    ⟨(3, 4), by simp, by rw [hd]⟩).1

/-- Stat modifier dict of BreacherShip (breacher_ship.py `self.stat_modifiers`).
All keys the combat code reads are present, so every `stat_modifiers.get(k, d)`
resolves to the corresponding field. -/
structure StatModifiers where
  explosive_bonus_kg : ℝ
  damage_resistance : ℝ
  dodge_chance : ℝ
  shield_capacity_bonus : ℝ
  shield_regen_bonus : ℝ
  explosive_damage_mult : ℝ
  cooldown_mult : ℝ
  shield_capacity_mult : ℝ

/-- Player-ship state: the ShipBase fields touched by the combat methods plus
the BreacherShip extensions (stat modifiers, cooldown dict, equipped bomb,
overcharge state).  The cooldown dict maps weapon names to remaining seconds;
absence of a key is `none`. -/
structure ShipState where
  x : ℝ
  y : ℝ
  vx : ℝ
  vy : ℝ
  current_hp : ℝ
  max_hp : ℝ
  current_shield : ℝ
  max_shield : ℝ
  shield_regen_timer : ℝ
  stat_modifiers : StatModifiers
  cooldowns : String → Option ℝ
  equipped_bomb_level : ℕ
  equipped_bomb_rarity : String
  overcharge_active : Bool
  overcharge_timer : ℝ
  breach_bomb_uses : ℕ

/-- ShipBase.take_damage (ship_base.py lines 143-171).  Shield absorbs first
(`min(damage, shield)`), any positive remainder hits the hull
(`min(remaining, hp)`), a nonempty hull hit adds a knockback impulse of
magnitude `sqrt(hull_damage) * 0.01` in a random direction (the random angle
is the `damage_angle` oracle parameter); returns `current_hp <= 0`. -/
def ShipBase_take_damage (s : ShipState) (damage_joules damage_angle : ℝ) : ShipState × Bool :=
  let shield_damage := if s.current_shield > 0 then min damage_joules s.current_shield else 0
  let new_shield := s.current_shield - shield_damage
  let remaining := damage_joules - shield_damage
  let hull_damage := if remaining > 0 then min remaining s.current_hp else 0
  let new_hp := s.current_hp - hull_damage
  let impulse_strength := Real.sqrt hull_damage * 0.01
  let new_vx := if remaining > 0 then s.vx + Real.cos damage_angle * impulse_strength else s.vx
  let new_vy := if remaining > 0 then s.vy + Real.sin damage_angle * impulse_strength else s.vy
  ({ s with current_shield := new_shield, current_hp := new_hp, vx := new_vx, vy := new_vy },
   if new_hp ≤ 0 then true else false)

/-- ShipBase.is_dead: `current_hp <= 0`. -/
def ShipBase_is_dead (s : ShipState) : Prop := s.current_hp ≤ 0

/-- BreacherShip.take_damage (breacher_ship.py lines 109-125): dodge roll
first (`random() < dodge_chance`, the roll is an oracle parameter in [0,1)),
then damage resistance as a multiplicative reduction, then the shield-regen
timer reset and the ShipBase shield/hull application. -/
def BreacherShip_take_damage (s : ShipState) (damage_joules roll damage_angle : ℝ) :
    ShipState × Bool :=
  if roll < s.stat_modifiers.dodge_chance then (s, false)
  else
    let actual_damage := damage_joules * (1 - s.stat_modifiers.damage_resistance)
    ShipBase_take_damage { s with shield_regen_timer := 0 } actual_damage damage_angle

/-- Enemy state: the BasicEnemy fields touched by take_damage
(enemy_manager.py). -/
structure EnemyState where
  x : ℝ
  y : ℝ
  vx : ℝ
  vy : ℝ
  current_hp : ℝ
  max_hp : ℝ
  alive : Bool
  active : Bool

/-- BasicEnemy.take_damage (enemy_manager.py lines 146-171): a dead enemy is
an immediate `return False` no-op; otherwise hp drops by the full joule
amount, damage above 100 J adds a random-direction knockback of magnitude
`sqrt(damage) * 0.1`, and on hp <= 0 the hp is clamped to 0, the enemy is
marked not alive and inactive, and True is returned. -/
def BasicEnemy_take_damage (e : EnemyState) (damage_joules knockback_angle : ℝ) :
    EnemyState × Bool :=
  if e.alive = false then (e, false)
  else
    let hp1 := e.current_hp - damage_joules
    let knockback_force := Real.sqrt damage_joules * 0.1
    let new_vx :=
      if damage_joules > 100 then e.vx + Real.cos knockback_angle * knockback_force else e.vx
    let new_vy :=
      if damage_joules > 100 then e.vy + Real.sin knockback_angle * knockback_force else e.vy
    if hp1 ≤ 0 then
      ({ e with current_hp := 0, vx := new_vx, vy := new_vy, alive := false, active := false },
       true)
    else
      ({ e with current_hp := hp1, vx := new_vx, vy := new_vy }, false)

/-- BasicEnemy.is_dead: `not self.alive`. -/
def BasicEnemy_is_dead (e : EnemyState) : Prop := e.alive = false

/-- C1: for the player ship's take_damage with zero damage resistance and zero
dodge chance, incoming joules are absorbed by the shield first and only the
remainder reduces hull: starting from current_shield = 500 and
current_hp = 1000, take_damage(700) leaves current_shield = 0 and
current_hp = 800. -/
theorem C1_shield_absorbs_first (s : ShipState) (roll angle : ℝ)
    (hdodge : s.stat_modifiers.dodge_chance = 0)
    (hres : s.stat_modifiers.damage_resistance = 0)
    (hroll : 0 ≤ roll)
    (hs : s.current_shield = 500) (hh : s.current_hp = 1000) :
    (BreacherShip_take_damage s 700 roll angle).1.current_shield = 0 ∧
    (BreacherShip_take_damage s 700 roll angle).1.current_hp = 800 := by
  unfold BreacherShip_take_damage
  rw [if_neg (by rw [hdodge]; exact not_lt.mpr hroll)]
  unfold ShipBase_take_damage
  simp only [hres, hs, hh]
  norm_num

/-- Witness for C1 at a concrete ship state. -/
theorem C1_shield_absorbs_first_witness :
    (BreacherShip_take_damage
      ⟨0, 0, 0, 0, 1000, 25000, 500, 15000, 0, ⟨0, 0, 0, 0, 0, 1, 1, 1⟩,
        fun _ => none, 1, "Common", false, 0, 0⟩ 700 0.5 0).1.current_shield = 0 ∧
    (BreacherShip_take_damage
      ⟨0, 0, 0, 0, 1000, 25000, 500, 15000, 0, ⟨0, 0, 0, 0, 0, 1, 1, 1⟩,
        fun _ => none, 1, "Common", false, 0, 0⟩ 700 0.5 0).1.current_hp = 800 :=
  C1_shield_absorbs_first _ 0.5 0 rfl rfl (by norm_num) rfl rfl

/-- C7: with dodge_chance = 1.0 every call to the player ship's take_damage
returns not-killed and leaves the whole state (in particular current_shield
and current_hp) unchanged — the dodge roll happens before any shield or hull
mutation. -/
theorem C7_full_dodge_no_mutation (s : ShipState) (d roll angle : ℝ)
    (hdodge : s.stat_modifiers.dodge_chance = 1)
    (h0 : 0 ≤ roll) (h1 : roll < 1) :
    BreacherShip_take_damage s d roll angle = (s, false) := by
  unfold BreacherShip_take_damage
  rw [if_pos (by rw [hdodge]; exact h1)]

/-- Witness for C7 at a concrete ship state and roll. -/
theorem C7_full_dodge_no_mutation_witness :
    (BreacherShip_take_damage
      ⟨0, 0, 0, 0, 1000, 25000, 500, 15000, 0, ⟨0, 0, 1, 0, 0, 1, 1, 1⟩,
        fun _ => none, 1, "Common", false, 0, 0⟩ 700 0.5 0).1.current_hp = 1000 ∧
    (BreacherShip_take_damage
      ⟨0, 0, 0, 0, 1000, 25000, 500, 15000, 0, ⟨0, 0, 1, 0, 0, 1, 1, 1⟩,
        fun _ => none, 1, "Common", false, 0, 0⟩ 700 0.5 0).2 = false := by
  have h := C7_full_dodge_no_mutation
    ⟨0, 0, 0, 0, 1000, 25000, 500, 15000, 0, ⟨0, 0, 1, 0, 0, 1, 1, 1⟩,
      fun _ => none, 1, "Common", false, 0, 0⟩ 700 0.5 0 rfl (by norm_num) (by norm_num)
  rw [h]
  exact ⟨rfl, rfl⟩

/-- C10: calling take_damage on an enemy that is already not alive is a
rejected no-op: it returns false (not killed) and mutates none of the enemy's
fields, so a dead enemy can never be killed a second time. -/
theorem C10_dead_enemy_take_damage_noop (e : EnemyState) (d angle : ℝ)
    (h : e.alive = false) :
    BasicEnemy_take_damage e d angle = (e, false) := by
  unfold BasicEnemy_take_damage
  rw [if_pos h]

/-- Witness for C10 at a concrete dead enemy. -/
theorem C10_dead_enemy_take_damage_noop_witness :
    BasicEnemy_take_damage ⟨0, 0, 0, 0, 0, 1500, false, false⟩ 500 0 =
      (⟨0, 0, 0, 0, 0, 1500, false, false⟩, false) :=
  C10_dead_enemy_take_damage_noop ⟨0, 0, 0, 0, 0, 1500, false, false⟩ 500 0 rfl

/-- One incoming damage application: the joule amount together with the
random knockback direction drawn inside take_damage. -/
structure DamageEvent where
  joules : ℝ
  angle : ℝ

/-- Repeated ShipBase.take_damage calls. -/
def ShipBase_run (s : ShipState) : List DamageEvent → ShipState
  | [] => s
  | ev :: rest => ShipBase_run (ShipBase_take_damage s ev.joules ev.angle).1 rest

/-- Repeated BasicEnemy.take_damage calls. -/
def BasicEnemy_run (e : EnemyState) : List DamageEvent → EnemyState
  | [] => e
  | ev :: rest => BasicEnemy_run (BasicEnemy_take_damage e ev.joules ev.angle).1 rest

theorem ShipBase_take_damage_hp_nonneg (s : ShipState) (d angle : ℝ)
    (h0 : 0 ≤ s.current_hp) :
    0 ≤ (ShipBase_take_damage s d angle).1.current_hp := by
  simp only [ShipBase_take_damage]
  split_ifs with h1 h2 h2 <;>
    first
      | exact sub_nonneg.mpr (min_le_right _ _)
      | simpa using h0

theorem ShipBase_take_damage_dead_mono (s : ShipState) (d angle : ℝ)
    (hdead : s.current_hp ≤ 0) :
    (ShipBase_take_damage s d angle).1.current_hp ≤ 0 := by
  simp only [ShipBase_take_damage]
  split_ifs with h1 h2 h2 <;>
    first
      | exact sub_nonpos.mpr (le_min (le_trans hdead (le_of_lt h2)) le_rfl)
      | simpa using hdead

theorem BasicEnemy_take_damage_hp_nonneg (e : EnemyState) (d angle : ℝ)
    (h0 : 0 ≤ e.current_hp) :
    0 ≤ (BasicEnemy_take_damage e d angle).1.current_hp := by
  simp only [BasicEnemy_take_damage]
  by_cases h1 : e.alive = false
  · rw [if_pos h1]; exact h0
  · rw [if_neg h1]
    by_cases h2 : e.current_hp - d ≤ 0
    · rw [if_pos h2]
    · rw [if_neg h2]; exact le_of_lt (not_le.mp h2)

theorem BasicEnemy_take_damage_dead_mono (e : EnemyState) (d angle : ℝ)
    (hdead : e.alive = false) :
    (BasicEnemy_take_damage e d angle).1.alive = false := by
  simp only [BasicEnemy_take_damage]
  rw [if_pos hdead]
  exact hdead

/-- C3: for every entity (ship or enemy) and every sequence of take_damage
calls with non-negative joule amounts, current_hp never becomes negative
(every sequence, hence in particular every prefix, ends with hp at least 0),
and once is_dead() holds it keeps holding after every further take_damage
call — the Alive-to-Dead transition is one-way. -/
theorem C3_hull_floor_and_one_way_death (s : ShipState) (e : EnemyState)
    (events : List DamageEvent)
    (hs : 0 ≤ s.current_hp) (he : 0 ≤ e.current_hp)
    (hnn : ∀ ev ∈ events, 0 ≤ ev.joules) :
    (0 ≤ (ShipBase_run s events).current_hp ∧
      (ShipBase_is_dead s → ShipBase_is_dead (ShipBase_run s events))) ∧
    (0 ≤ (BasicEnemy_run e events).current_hp ∧
      (BasicEnemy_is_dead e → BasicEnemy_is_dead (BasicEnemy_run e events))) := by
  induction events generalizing s e with
  | nil => exact ⟨⟨hs, fun h => h⟩, ⟨he, fun h => h⟩⟩
  | cons ev rest ih =>
    have hnn' : ∀ x ∈ rest, 0 ≤ x.joules := fun x hx => hnn x (List.mem_cons_of_mem ev hx)
    have hs' := ShipBase_take_damage_hp_nonneg s ev.joules ev.angle hs
    have he' := BasicEnemy_take_damage_hp_nonneg e ev.joules ev.angle he
    obtain ⟨⟨ih1, ih2⟩, ⟨ih3, ih4⟩⟩ :=
      ih (ShipBase_take_damage s ev.joules ev.angle).1
        (BasicEnemy_take_damage e ev.joules ev.angle).1 hs' he' hnn'
    refine ⟨⟨ih1, fun hd => ?_⟩, ⟨ih3, fun hd => ?_⟩⟩
    · exact ih2 (ShipBase_take_damage_dead_mono s ev.joules ev.angle hd)
    · exact ih4 (BasicEnemy_take_damage_dead_mono e ev.joules ev.angle hd)

/-- Witness for C3: two take_damage calls on a concrete ship and a concrete
enemy keep both hull values non-negative. -/
theorem C3_hull_floor_and_one_way_death_witness :
    0 ≤ (ShipBase_run
      ⟨0, 0, 0, 0, 1000, 25000, 500, 15000, 0, ⟨0, 0, 0, 0, 0, 1, 1, 1⟩,
        fun _ => none, 1, "Common", false, 0, 0⟩
      [⟨700, 0⟩, ⟨9000, 1⟩]).current_hp ∧
    0 ≤ (BasicEnemy_run ⟨0, 0, 0, 0, 1500, 1500, true, true⟩
      [⟨700, 0⟩, ⟨9000, 1⟩]).current_hp := by
  have h := C3_hull_floor_and_one_way_death
    ⟨0, 0, 0, 0, 1000, 25000, 500, 15000, 0, ⟨0, 0, 0, 0, 0, 1, 1, 1⟩,
      fun _ => none, 1, "Common", false, 0, 0⟩
    ⟨0, 0, 0, 0, 1500, 1500, true, true⟩
    [⟨700, 0⟩, ⟨9000, 1⟩]
    (by norm_num) (by norm_num)
    (by
      intro ev hev
      rcases List.mem_cons.mp hev with rfl | hev
      · norm_num
      · rcases List.mem_cons.mp hev with rfl | hev
        · norm_num
        · exact absurd hev (List.not_mem_nil ev))
  exact ⟨h.1.1, h.2.1⟩

/-- Bomb stats dict as returned by WeaponsDatabase.get_standard_bomb and
consumed by BreacherShip / ProjectileManager.add_bomb.  `min_damage` and
`max_damage` are Python ints. -/
structure BombStats where
  min_damage : ℤ
  max_damage : ℤ
  mass_kg : ℝ
  velocity_kmh : ℝ
  diameter_mm : ℝ
  length_mm : ℝ
  shrapnel_kg : ℝ
  effect : String

/-- DamageCalculator.create_warhead_data_from_db: converts a database bomb
dict into warhead data (km/h to m/s, 20% casing mass, explosive mass floored
at 0.1 kg). -/
def create_warhead_data_from_db (bomb_stats : BombStats) : WarheadData :=
  let velocity_ms := bomb_stats.velocity_kmh * 1000 / 3600
  let total_mass_kg := bomb_stats.mass_kg
  let shrapnel_kg := bomb_stats.shrapnel_kg
  let shrapnel_percent := shrapnel_kg / total_mass_kg
  let casing_mass := total_mass_kg * 0.2
  let explosive_kg := max 0.1 (total_mass_kg - shrapnel_kg - casing_mass)
  { explosive_kg := explosive_kg, shrapnel_percent := shrapnel_percent,
    total_mass := total_mass_kg, velocity := velocity_ms,
    diameter_mm := bomb_stats.diameter_mm, length_mm := bomb_stats.length_mm,
    shrapnel_kg := shrapnel_kg }

/-- Kinetic projectile data dict (weapons_database.py KINETIC_PROJECTILES plus
the fields UniversalCannon._get_projectile_specs adds; `damage_base` is absent
from the database entries and inserted by the cannon). -/
structure ProjectileData where
  mass_kg : ℝ
  velocity_kmh : ℝ
  diameter_mm : ℝ
  length_mm : ℝ
  material : String
  damage_base : Option ℝ

/-- DamageCalculator.calculate_projectile_damage: pure kinetic energy
`0.5 * mass * (velocity_kmh converted to m/s)^2`. -/
def calculate_projectile_damage (projectile_data : ProjectileData) : ℝ :=
  0.5 * projectile_data.mass_kg * (projectile_data.velocity_kmh * 1000 / 3600) ^ 2

/-- Energy weapon data dict (weapons_database.py ENERGY_WEAPONS; `beam_type`
defaults to "continuous" via `.get`). -/
structure EnergyWeaponData where
  power_mw : ℝ
  duration_ms : ℝ
  beam_type : String

/-- DamageCalculator.calculate_energy_weapon_damage: power times duration with
a beam-type-specific linear distance falloff floored at 0.1 (continuous) or
0.05 (pulse). -/
def calculate_energy_weapon_damage (weapon_data : EnergyWeaponData)
    (target_pos beam_origin : ℝ × ℝ) : ℝ :=
  let power_watts := weapon_data.power_mw * 1000000
  let duration_seconds := weapon_data.duration_ms / 1000
  let energy_joules := power_watts * duration_seconds
  let distance := calculate_distance beam_origin target_pos
  let falloff :=
    if weapon_data.beam_type = "continuous" then max 0.1 (1 - distance / 200)
    else if weapon_data.beam_type = "pulse" then max 0.05 (1 - distance / 150)
    else 1
  energy_joules * falloff

/-- Bomb projectile dict created by ProjectileManager.add_bomb. -/
structure Bomb where
  x : ℝ
  y : ℝ
  vx : ℝ
  vy : ℝ
  warhead_data : WarheadData
  bomb_stats : BombStats
  group_id : String
  active : Bool
  lifetime : ℝ
  radius : ℝ
  proximity_radius : ℝ

/-- Kinetic shot dict created by ProjectileManager.add_kinetic_shot. -/
structure KineticShot where
  x : ℝ
  y : ℝ
  vx : ℝ
  vy : ℝ
  projectile_data : ProjectileData
  is_player_shot : Bool
  active : Bool
  lifetime : ℝ
  radius : ℝ
  joule_damage : ℝ

/-- Energy beam dict created by ProjectileManager.add_energy_beam. -/
structure EnergyBeam where
  start_x : ℝ
  start_y : ℝ
  end_x : ℝ
  end_y : ℝ
  weapon_data : EnergyWeaponData
  remaining_duration : ℝ
  active : Bool
  width : ℝ
  joule_damage : ℝ

/-- ProjectileManager state: the three projectile collections plus the screen
geometry fields used for scaling and cleanup. -/
structure PMState where
  bombs : List Bomb
  kinetic_shots : List KineticShot
  energy_beams : List EnergyBeam
  screen_width : ℝ
  screen_height : ℝ
  cleanup_margin : ℝ
  base_size : ℝ

/-- ProjectileManager.add_bomb (projectile_manager.py lines 34-56): converts
the stats to warhead data and unconditionally appends a new active bomb with a
10 s lifetime and screen-scaled radii; no input validation is performed. -/
def add_bomb (pm : PMState) (x y vx vy : ℝ) (bomb_stats : BombStats)
    (group_id : String) : PMState × Bomb :=
  let warhead_data := create_warhead_data_from_db bomb_stats
  let bomb : Bomb :=
    { x := x, y := y, vx := vx, vy := vy,
      warhead_data := warhead_data, bomb_stats := bomb_stats, group_id := group_id,
      active := true, lifetime := 10,
      radius := max 4 (pyIntR (pm.base_size * 0.6)),
      proximity_radius := max 15 (pyIntR (pm.base_size * 1.8)) }
  ({ pm with bombs := pm.bombs ++ [bomb] }, bomb)

/-- ProjectileManager.add_kinetic_shot (projectile_manager.py lines 58-81):
unconditionally appends a new active shot with a 5 s lifetime and the
precomputed kinetic-energy damage; no input validation is performed. -/
def add_kinetic_shot (pm : PMState) (x y vx vy : ℝ) (projectile_data : ProjectileData)
    (is_player_shot : Bool) : PMState × KineticShot :=
  let shot : KineticShot :=
    { x := x, y := y, vx := vx, vy := vy,
      projectile_data := projectile_data, is_player_shot := is_player_shot,
      active := true, lifetime := 5,
      radius := max 2 (pyIntR (pm.base_size * 0.15)),
      joule_damage := calculate_projectile_damage projectile_data }
  ({ pm with kinetic_shots := pm.kinetic_shots ++ [shot] }, shot)

/-- ProjectileManager.add_energy_beam (projectile_manager.py lines 83-104). -/
def add_energy_beam (pm : PMState) (x y target_x target_y : ℝ)
    (weapon_data : EnergyWeaponData) (duration : ℝ) : PMState × EnergyBeam :=
  let beam : EnergyBeam :=
    { start_x := x, start_y := y, end_x := target_x, end_y := target_y,
      weapon_data := weapon_data, remaining_duration := duration, active := true,
      width := max 3 (pyIntR (pm.base_size * 0.25)),
      joule_damage := calculate_energy_weapon_damage weapon_data (target_x, target_y) (x, y) }
  ({ pm with energy_beams := pm.energy_beams ++ [beam] }, beam)

/-- Random values drawn during one bomb detonation: the per-enemy knockback
direction inside BasicEnemy.take_damage and the player's dodge roll and
knockback direction inside BreacherShip.take_damage. -/
structure DetonationRng where
  enemy_angle : ℕ → ℝ
  player_roll : ℝ
  player_angle : ℝ

/-- ProjectileManager._detonate_bomb (projectile_manager.py lines 143-200):
every living enemy takes the full explosion damage at its position (when
positive); the player then takes 10% of the explosion damage at the player
position (friendly-fire reduction). -/
def detonate_bomb (b : Bomb) (enemies : List EnemyState) (player : ShipState)
    (rng : DetonationRng) : List EnemyState × ShipState :=
  let explosion_center := (b.x, b.y)
  let new_enemies := enemies.enum.map (fun p =>
    if p.2.alive = true then
      let damage_joules := calculate_explosion_damage explosion_center (p.2.x, p.2.y) b.warhead_data
      if damage_joules > 0 then
        (BasicEnemy_take_damage p.2 damage_joules (rng.enemy_angle p.1)).1
      else p.2
    else p.2)
  let player_damage := calculate_explosion_damage explosion_center (player.x, player.y) b.warhead_data
  let new_player :=
    if player_damage > 0 then
      (BreacherShip_take_damage player (player_damage * 0.1) rng.player_roll rng.player_angle).1
    else player
  (new_enemies, new_player)

/-- One per-frame update of a single bomb, as performed by the loop body of
ProjectileManager._update_bombs (projectile_manager.py lines 113-141): an
inactive bomb is skipped; otherwise the bomb moves, its lifetime drops, an
expired bomb is deactivated without detonating (dud), and otherwise the
proximity fuse is checked against the positions of the living enemies — on
trigger the bomb detonates (dealing its damage) and is deactivated in the same
step.  The final Bool records whether the bomb detonated this step. -/
def update_bomb (delta_time : ℝ) (enemies : List EnemyState) (player : ShipState)
    (rng : DetonationRng) (b : Bomb) : Bomb × List EnemyState × ShipState × Bool :=
  if b.active = false then (b, enemies, player, false)
  else
    let moved :=
      { b with
        x := b.x + b.vx * delta_time
        y := b.y + b.vy * delta_time
        lifetime := b.lifetime - delta_time }
    if moved.lifetime ≤ 0 then ({ moved with active := false }, enemies, player, false)
    else
      let enemy_positions := (enemies.filter (fun e => e.alive = true)).map (fun e => (e.x, e.y))
      let trig := (check_proximity_trigger (moved.x, moved.y) (moved.vx, moved.vy)
        enemy_positions moved.proximity_radius delta_time).1
      if trig = true then
        let detonated := { moved with active := false }
        let ep := detonate_bomb detonated enemies player rng
        (detonated, ep.1, ep.2, true)
      else (moved, enemies, player, false)

/-- Environment of one frame of bomb updates: the frame's delta-time, the live
entity collections the bomb is checked against, and the frame's random draws. -/
structure BombFrame where
  delta_time : ℝ
  enemies : List EnemyState
  player : ShipState
  rng : DetonationRng

/-- Number of detonations of a single bomb across a sequence of per-frame
updates (the environment of each frame is arbitrary). -/
def bomb_run_count (b : Bomb) : List BombFrame → ℕ
  | [] => 0
  | f :: rest =>
    let r := update_bomb f.delta_time f.enemies f.player f.rng b
    (if r.2.2.2 = true then 1 else 0) + bomb_run_count r.1 rest

theorem update_bomb_inactive (dt : ℝ) (es : List EnemyState) (p : ShipState)
    (rng : DetonationRng) (b : Bomb) (h : b.active = false) :
    update_bomb dt es p rng b = (b, es, p, false) := by
  unfold update_bomb
  rw [if_pos h]

theorem update_bomb_detonated_inactive (dt : ℝ) (es : List EnemyState) (p : ShipState)
    (rng : DetonationRng) (b : Bomb) :
    (update_bomb dt es p rng b).2.2.2 = true → (update_bomb dt es p rng b).1.active = false := by
  simp only [update_bomb]
  split_ifs with h1 h2 h3
  · intro h; exact absurd h (by simp)
  · intro h; exact absurd h (by simp)
  · intro h; rfl
  · intro h; exact absurd h (by simp)

theorem bomb_run_count_inactive (frames : List BombFrame) :
    ∀ b : Bomb, b.active = false → bomb_run_count b frames = 0 := by
  induction frames with
  | nil => intro b _; rfl
  | cons f rest ih =>
    intro b h
    simp only [bomb_run_count]
    rw [update_bomb_inactive f.delta_time f.enemies f.player f.rng b h]
    simp [ih b h]

theorem bomb_run_count_le_one (frames : List BombFrame) :
    ∀ b : Bomb, bomb_run_count b frames ≤ 1 := by
  induction frames with
  | nil => intro b; exact Nat.zero_le 1
  | cons f rest ih =>
    intro b
    simp only [bomb_run_count]
    by_cases hdet : (update_bomb f.delta_time f.enemies f.player f.rng b).2.2.2 = true
    · rw [if_pos hdet]
      rw [bomb_run_count_inactive rest _
        (update_bomb_detonated_inactive f.delta_time f.enemies f.player f.rng b hdet)]
    · rw [if_neg hdet]
      simpa using ih _

/-- C4: a bomb detonates at most once.  Across any sequence of per-frame bomb
updates the number of detonations is at most one; a bomb whose proximity fuse
triggers is deactivated in the same step (so it can never trigger or deal
damage again); a bomb whose lifetime expires without triggering is deactivated
as a dud, dealing no damage to any enemy or to the player; and an update of an
inactive bomb changes nothing and deals no damage. -/
theorem C4_bomb_detonates_at_most_once (b : Bomb) (frames : List BombFrame)
    (dt : ℝ) (es : List EnemyState) (p : ShipState) (rng : DetonationRng) :
    bomb_run_count b frames ≤ 1 ∧
    ((update_bomb dt es p rng b).2.2.2 = true →
      (update_bomb dt es p rng b).1.active = false) ∧
    (b.active = true → b.lifetime - dt ≤ 0 →
      update_bomb dt es p rng b =
        ({ b with
            x := b.x + b.vx * dt
            y := b.y + b.vy * dt
            lifetime := b.lifetime - dt
            active := false }, es, p, false)) ∧
    (b.active = false → update_bomb dt es p rng b = (b, es, p, false)) := by
  refine ⟨bomb_run_count_le_one frames b,
    update_bomb_detonated_inactive dt es p rng b, ?_, update_bomb_inactive dt es p rng b⟩
  intro hact hlife
  unfold update_bomb
  rw [if_neg (by rw [hact]; simp), if_pos hlife]

/-- Witness for C4: a concrete active bomb whose lifetime (1 s) expires during
a dt = 2 frame is deactivated without detonating. -/
theorem C4_bomb_detonates_at_most_once_witness :
    (update_bomb 2 [] ⟨0, 0, 0, 0, 1000, 25000, 500, 15000, 0, ⟨0, 0, 0, 0, 0, 1, 1, 1⟩,
        fun _ => none, 1, "Common", false, 0, 0⟩ ⟨fun _ => 0, 0, 0⟩
      ⟨0, 0, 0, 0, ⟨0.5, 0.1, 50, 220, 75, 300, 5⟩, ⟨1, 3, 50, 792, 75, 300, 5, "None"⟩,
        "g", true, 1, 4, 15⟩).2.2.2 = false := by
  have h := (C4_bomb_detonates_at_most_once
    ⟨0, 0, 0, 0, ⟨0.5, 0.1, 50, 220, 75, 300, 5⟩, ⟨1, 3, 50, 792, 75, 300, 5, "None"⟩,
      "g", true, 1, 4, 15⟩ [] 2 []
    ⟨0, 0, 0, 0, 1000, 25000, 500, 15000, 0, ⟨0, 0, 0, 0, 0, 1, 1, 1⟩,
      fun _ => none, 1, "Common", false, 0, 0⟩ ⟨fun _ => 0, 0, 0⟩).2.2.1
    rfl (by norm_num)
  rw [h]

/-- Counterexample for C8: add_bomb performs no validation — a bomb spec with
negative total mass and negative shrapnel mass is accepted and silently
becomes an active projectile in the bombs collection (no failure occurs). -/
theorem C8_counterexample_no_fail_fast :
    ((add_bomb ⟨[], [], [], 1920, 1080, 100, 6.48⟩ 0 0 0 0
        ⟨1, 3, -50, 792, 75, 300, -1, "None"⟩ "g").1.bombs.map (fun b => b.active)) =
      [true] := by
  rfl

/-- C8 amended: the projectile spawn operations perform no validation of their
physical inputs: for every input (malformed or not) add_bomb and
add_kinetic_shot unconditionally append exactly one new projectile with
active = true (the warhead conversion merely floors the derived explosive
mass at 0.1 kg); there is no failure path. -/
theorem C8_amended_spawn_never_rejects (pm : PMState) (x y vx vy : ℝ)
    (bomb_stats : BombStats) (group_id : String) (projectile_data : ProjectileData)
    (is_player_shot : Bool) :
    (add_bomb pm x y vx vy bomb_stats group_id).1.bombs =
      pm.bombs ++ [(add_bomb pm x y vx vy bomb_stats group_id).2] ∧
    (add_bomb pm x y vx vy bomb_stats group_id).2.active = true ∧
    (add_kinetic_shot pm x y vx vy projectile_data is_player_shot).1.kinetic_shots =
      pm.kinetic_shots ++ [(add_kinetic_shot pm x y vx vy projectile_data is_player_shot).2] ∧
    (add_kinetic_shot pm x y vx vy projectile_data is_player_shot).2.active = true :=
  ⟨rfl, rfl, rfl, rfl⟩

/-- Base stats of WeaponsDatabase.STANDARD_BOMBS, one entry per level 1-13
(weapons_database.py lines 14-111). -/
structure BombBase where
  min_damage : ℤ
  max_damage : ℤ
  mass_kg : ℝ
  velocity_kmh : ℝ
  diameter_mm : ℝ
  length_mm : ℝ
  shrapnel_kg : ℝ

/-- The `base_stats` table of WeaponsDatabase.STANDARD_BOMBS: levels 1-13 are
present, everything else is absent. -/
def STANDARD_BOMBS_base : ℕ → Option BombBase
  | 1 => some ⟨1, 3, 50, 792, 75, 300, 5⟩
  | 2 => some ⟨2, 6, 165, 851, 95, 380, 16.5⟩
  | 3 => some ⟨3, 9, 280, 910, 110, 450, 28⟩
  | 4 => some ⟨5, 12, 395, 969, 125, 520, 39.5⟩
  | 5 => some ⟨7, 15, 510, 1028, 140, 590, 51⟩
  | 6 => some ⟨9, 18, 625, 1087, 155, 660, 62.5⟩
  | 7 => some ⟨11, 21, 740, 1146, 170, 730, 74⟩
  | 8 => some ⟨13, 24, 855, 1205, 185, 800, 85.5⟩
  | 9 => some ⟨14, 27, 970, 1264, 200, 870, 97⟩
  | 10 => some ⟨15, 30, 1085, 1323, 215, 940, 108.5⟩
  | 11 => some ⟨16, 33, 1200, 1382, 230, 1010, 120⟩
  | 12 => some ⟨17, 36, 1315, 1441, 245, 1080, 131.5⟩
  | 13 => some ⟨15, 30, 1350, 1441, 250, 1100, 135⟩
  | _ => none

/-- The per-level `rarity_effects` tables (present only for levels 1 and 2):
damage multiplier and effect string per rarity. -/
def STANDARD_BOMBS_rarity_effects (level : ℕ) (rarity : String) : Option (ℝ × String) :=
  if level = 1 then
    if rarity = "Common" then some (1.0, "None")
    else if rarity = "Uncommon" then some (1.0, "+10% explosion area")
    else if rarity = "Rare" then some (1.33, "Piercing explosion (ignores 20% armor/cover)")
    else if rarity = "Epic" then some (1.33, "Cooldown reduced 15%")
    else if rarity = "Legendary" then some (1.67, "Area +25% and pierces light shields")
    else if rarity = "Mythic" then some (1.67, "Secondary explosion (50% damage after 1s)")
    else if rarity = "Relic" then some (2.0, "Random elemental explosion + Cooldown -25% + Area +30%")
    else none
  else if level = 2 then
    if rarity = "Common" then some (1.0, "None")
    else if rarity = "Uncommon" then some (1.17, "+10% explosion area")
    else if rarity = "Rare" then some (1.17, "Piercing explosion (ignores 20% armor/cover)")
    else if rarity = "Epic" then some (1.17, "Cooldown reduced 15%")
    else if rarity = "Legendary" then some (1.33, "Area +25% and pierces light shields")
    else if rarity = "Mythic" then some (1.33, "Secondary explosion (50% damage after 1s)")
    else if rarity = "Relic" then some (1.5, "Random elemental explosion + Cooldown -25% + Area +30%")
    else none
  else none

/-- Generic rarity multipliers used by get_standard_bomb for levels without a
`rarity_effects` table (unknown rarities default to 1.0). -/
def generic_rarity_multiplier (rarity : String) : ℝ :=
  if rarity = "Common" then 1.0
  else if rarity = "Uncommon" then 1.1
  else if rarity = "Rare" then 1.2
  else if rarity = "Epic" then 1.35
  else if rarity = "Legendary" then 1.5
  else if rarity = "Mythic" then 1.75
  else if rarity = "Relic" then 2.0
  else 1.0

/-- WeaponsDatabase.get_standard_bomb (weapons_database.py lines 219-250):
`None` exactly when the level is not in the table; otherwise the base stats
with the rarity damage multiplier applied to min/max damage. -/
def get_standard_bomb (level : ℕ) (rarity : String) : Option BombStats :=
  match STANDARD_BOMBS_base level with
  | none => none
  | some base =>
    let dm_eff :=
      match STANDARD_BOMBS_rarity_effects level rarity with
      | some de => de
      | none => (generic_rarity_multiplier rarity, "None")
    some { min_damage := pyInt ((base.min_damage : ℝ) * dm_eff.1),
           max_damage := pyInt ((base.max_damage : ℝ) * dm_eff.1),
           mass_kg := base.mass_kg, velocity_kmh := base.velocity_kmh,
           diameter_mm := base.diameter_mm, length_mm := base.length_mm,
           shrapnel_kg := base.shrapnel_kg, effect := dm_eff.2 }

/-- BreacherShip._apply_stat_bonuses_to_bomb (breacher_ship.py lines 229-254):
attack-stat explosive bonus (adds shrapnel mass and scales damage), then the
perk explosive damage multiplier, then the 1.5x overcharge multiplier. -/
def apply_stat_bonuses_to_bomb (s : ShipState) (base_bomb_stats : BombStats) : BombStats :=
  let explosive_bonus := s.stat_modifiers.explosive_bonus_kg
  let st1 :=
    if explosive_bonus > 0 then
      let new_shrapnel := base_bomb_stats.shrapnel_kg + explosive_bonus
      let damage_increase := 1 + explosive_bonus / new_shrapnel
      { base_bomb_stats with
        shrapnel_kg := new_shrapnel
        min_damage := pyInt ((base_bomb_stats.min_damage : ℝ) * damage_increase)
        max_damage := pyInt ((base_bomb_stats.max_damage : ℝ) * damage_increase) }
    else base_bomb_stats
  let explosive_mult := s.stat_modifiers.explosive_damage_mult
  let st2 :=
    { st1 with
      min_damage := pyInt ((st1.min_damage : ℝ) * explosive_mult)
      max_damage := pyInt ((st1.max_damage : ℝ) * explosive_mult) }
  if s.overcharge_active = true then
    { st2 with
      min_damage := pyInt ((st2.min_damage : ℝ) * 1.5)
      max_damage := pyInt ((st2.max_damage : ℝ) * 1.5) }
  else st2

/-- BreacherShip._fire_breach_bomb (breacher_ship.py lines 138-185): rejected
while on cooldown or when the bomb stats do not resolve; otherwise five bombs
are spawned in a fan (straight up, plus or minus 7.5 and 15 degrees), the use
counter is bumped and the 4 s (cooldown_mult-scaled) cooldown is set.  The
randomly generated group id is the `group_id` oracle parameter. -/
def fire_breach_bomb (s : ShipState) (pm : PMState) (group_id : String) :
    Bool × ShipState × PMState :=
  if (s.cooldowns ("breach_bomb")).isSome then (false, s, pm)
  else
    match get_standard_bomb s.equipped_bomb_level s.equipped_bomb_rarity with
    | none => (false, s, pm)
    | some bomb_stats =>
      let enhanced := apply_stat_bonuses_to_bomb s bomb_stats
      let angles : List ℝ :=
        [-(Real.pi / 2), -(Real.pi / 2) - Real.pi / 12, -(Real.pi / 2) - Real.pi / 24,
         -(Real.pi / 2) + Real.pi / 24, -(Real.pi / 2) + Real.pi / 12]
      let velocity_ms := enhanced.velocity_kmh * 1000 / 3600
      let pm1 := angles.foldl (fun acc angle =>
        (add_bomb acc s.x (s.y - 25) (Real.cos angle * velocity_ms)
          (Real.sin angle * velocity_ms) enhanced group_id).1) pm
      let final_cooldown := 4.0 * s.stat_modifiers.cooldown_mult
      let s1 :=
        { s with
          breach_bomb_uses := s.breach_bomb_uses + 1
          cooldowns := fun k =>
            if k = "breach_bomb" then some final_cooldown else s.cooldowns k }
      (true, s1, pm1)

/-- BreacherShip._fire_cluster_strike (breacher_ship.py lines 187-227):
rejected while on cooldown or when the bomb stats do not resolve; otherwise
the stats are scaled (0.75x damage, 1.2x velocity) and seven bombs are spawned
in a lateral line at x offsets -120..120 in steps of 40, and the 3 s
(cooldown_mult-scaled) cooldown is set. -/
def fire_cluster_strike (s : ShipState) (pm : PMState) (group_id : String) :
    Bool × ShipState × PMState :=
  if (s.cooldowns ("cluster_strike")).isSome then (false, s, pm)
  else
    match get_standard_bomb s.equipped_bomb_level s.equipped_bomb_rarity with
    | none => (false, s, pm)
    | some bomb_stats =>
      let base_cluster := apply_stat_bonuses_to_bomb s bomb_stats
      let cluster_stats :=
        { base_cluster with
          min_damage := pyInt ((base_cluster.min_damage : ℝ) * 0.75)
          max_damage := pyInt ((base_cluster.max_damage : ℝ) * 0.75)
          velocity_kmh := pyIntR (base_cluster.velocity_kmh * 1.2) }
      let velocity_ms := cluster_stats.velocity_kmh * 1000 / 3600
      let offsets : List ℝ := [-3, -2, -1, 0, 1, 2, 3]
      let pm1 := offsets.foldl (fun acc i =>
        (add_bomb acc (s.x + i * 40) (s.y - 25) 0 (-velocity_ms * 1.2) cluster_stats
          group_id).1) pm
      let s1 :=
        { s with
          cooldowns := fun k =>
            if k = "cluster_strike" then some (3.0 * s.stat_modifiers.cooldown_mult)
            else s.cooldowns k }
      (true, s1, pm1)

/-- C6: each multi-projectile volley is atomic.  Off cooldown with resolving
bomb stats, a breach-bomb fire returns true and appends exactly 5 bombs and a
cluster-strike fire returns true and appends exactly 7 bombs (kinetic shots
untouched); when a precondition fails (on cooldown, or stats do not resolve)
the fire returns false and changes nothing — in particular no cooldown is
consumed and zero projectiles spawn, never a partial volley. -/
theorem C6_volleys_atomic (s : ShipState) (pm : PMState) (gid : String) :
    (s.cooldowns ("breach_bomb") = none →
      (get_standard_bomb s.equipped_bomb_level s.equipped_bomb_rarity).isSome = true →
      (fire_breach_bomb s pm gid).1 = true ∧
      (fire_breach_bomb s pm gid).2.2.bombs.length = pm.bombs.length + 5 ∧
      (fire_breach_bomb s pm gid).2.2.kinetic_shots = pm.kinetic_shots) ∧
    ((s.cooldowns ("breach_bomb")).isSome = true ∨
        get_standard_bomb s.equipped_bomb_level s.equipped_bomb_rarity = none →
      fire_breach_bomb s pm gid = (false, s, pm)) ∧
    (s.cooldowns ("cluster_strike") = none →
      (get_standard_bomb s.equipped_bomb_level s.equipped_bomb_rarity).isSome = true →
      (fire_cluster_strike s pm gid).1 = true ∧
      (fire_cluster_strike s pm gid).2.2.bombs.length = pm.bombs.length + 7 ∧
      (fire_cluster_strike s pm gid).2.2.kinetic_shots = pm.kinetic_shots) ∧
    ((s.cooldowns ("cluster_strike")).isSome = true ∨
        get_standard_bomb s.equipped_bomb_level s.equipped_bomb_rarity = none →
      fire_cluster_strike s pm gid = (false, s, pm)) := by
  refine ⟨?_, ?_, ?_, ?_⟩
  · intro hcd hres
    obtain ⟨stats, hstats⟩ := Option.isSome_iff_exists.mp hres
    unfold fire_breach_bomb
    rw [hcd, hstats]
    simp only [Option.isSome_none, Bool.false_eq_true, if_false]
    refine ⟨trivial, ?_, ?_⟩
    · simp only [List.foldl_cons, List.foldl_nil, add_bomb]
      simp only [List.length_append, List.length_cons, List.length_nil]
    · simp only [List.foldl_cons, List.foldl_nil, add_bomb]
  · intro h
    rcases h with hcd | hnone
    · unfold fire_breach_bomb
      rw [if_pos hcd]
    · unfold fire_breach_bomb
      rw [hnone]
      by_cases hcd : (s.cooldowns ("breach_bomb")).isSome = true
      · rw [if_pos hcd]
      · rw [if_neg hcd]
  · intro hcd hres
    obtain ⟨stats, hstats⟩ := Option.isSome_iff_exists.mp hres
    unfold fire_cluster_strike
    rw [hcd, hstats]
    simp only [Option.isSome_none, Bool.false_eq_true, if_false]
    refine ⟨trivial, ?_, ?_⟩
    · simp only [List.foldl_cons, List.foldl_nil, add_bomb]
      simp only [List.length_append, List.length_cons, List.length_nil]
    · simp only [List.foldl_cons, List.foldl_nil, add_bomb]
  · intro h
    rcases h with hcd | hnone
    · unfold fire_cluster_strike
      rw [if_pos hcd]
    · unfold fire_cluster_strike
      rw [hnone]
      by_cases hcd : (s.cooldowns ("cluster_strike")).isSome = true
      · rw [if_pos hcd]
      · rw [if_neg hcd]

/-- Witness for C6: a concrete Breacher with empty cooldowns and a level-1
Common bomb fires a breach volley of exactly 5 bombs and a cluster volley of
exactly 7 bombs. -/
theorem C6_volleys_atomic_witness :
    (fire_breach_bomb
      ⟨0, 0, 0, 0, 1000, 25000, 500, 15000, 0, ⟨0, 0, 0, 0, 0, 1, 1, 1⟩,
        fun _ => none, 1, "Common", false, 0, 0⟩
      ⟨[], [], [], 1920, 1080, 100, 6.48⟩ "g").2.2.bombs.length = 5 ∧
    (fire_cluster_strike
      ⟨0, 0, 0, 0, 1000, 25000, 500, 15000, 0, ⟨0, 0, 0, 0, 0, 1, 1, 1⟩,
        fun _ => none, 1, "Common", false, 0, 0⟩
      ⟨[], [], [], 1920, 1080, 100, 6.48⟩ "g").2.2.bombs.length = 7 := by
  have h := C6_volleys_atomic
    ⟨0, 0, 0, 0, 1000, 25000, 500, 15000, 0, ⟨0, 0, 0, 0, 0, 1, 1, 1⟩,
      fun _ => none, 1, "Common", false, 0, 0⟩
    ⟨[], [], [], 1920, 1080, 100, 6.48⟩ "g"
  have hres : (get_standard_bomb 1 "Common").isSome = true := by
    simp [get_standard_bomb, STANDARD_BOMBS_base]
  exact ⟨by simpa using (h.1 rfl hres).2.1, by simpa using (h.2.2.1 rfl hres).2.1⟩

/-- WeaponsDatabase.KINETIC_PROJECTILES / get_kinetic_projectile
(weapons_database.py lines 194-204, 267-270).  The database entries carry no
`damage_base` key. -/
def get_kinetic_projectile (projectile_type : String) : Option ProjectileData :=
  if projectile_type = "armor_piercing" then
    some { mass_kg := 0.5, velocity_kmh := 5000, diameter_mm := 15, length_mm := 80,
           material := "Depleted Uranium", damage_base := none }
  else if projectile_type = "high_explosive" then
    some { mass_kg := 0.8, velocity_kmh := 4500, diameter_mm := 20, length_mm := 60,
           material := "Steel + HE Filler", damage_base := none }
  else if projectile_type = "incendiary" then
    some { mass_kg := 0.3, velocity_kmh := 4800, diameter_mm := 12, length_mm := 70,
           material := "Magnesium Core", damage_base := none }
  else none

/-- UniversalCannon state (universal_cannon.py lines 82-106), together with
the owning ship's position that fire() reads. -/
structure CannonState where
  ship_x : ℝ
  ship_y : ℝ
  cannon_level : ℕ
  cannon_rarity : String
  base_damage : ℝ
  fire_rate : ℝ
  projectile_speed : ℝ
  spread_angle : ℝ
  last_shot_time : ℝ
  shot_interval : ℝ
  barrel_count : ℕ
  barrel_spacing : ℝ
  muzzle_flash_timer : ℝ
  heat_buildup : ℝ
  max_heat : ℝ

/-- UniversalCannon.can_fire: the per-shot interval has elapsed. -/
def can_fire (c : CannonState) (current_time : ℝ) : Prop :=
  current_time - c.last_shot_time ≥ c.shot_interval

/-- UniversalCannon.is_overheated (universal_cannon.py lines 227-229). -/
def is_overheated (c : CannonState) : Prop :=
  c.heat_buildup ≥ c.max_heat

/-- Rarity damage multipliers of UniversalCannon._get_projectile_specs
(unknown rarities default to 1.0). -/
def cannon_rarity_multiplier (rarity : String) : ℝ :=
  if rarity = "Common" then 1.0
  else if rarity = "Uncommon" then 1.1
  else if rarity = "Rare" then 1.25
  else if rarity = "Epic" then 1.4
  else if rarity = "Legendary" then 1.6
  else 1.0

/-- UniversalCannon._get_projectile_specs (universal_cannon.py lines 188-225):
armor-piercing database round with the cannon's own muzzle velocity, and a
`damage_base` seeded from `base_damage` then scaled by level and rarity.  The
`if not base_projectile` fallback branch is dead code, since the
armor_piercing entry always resolves; the fallback dict carries no length
field (0 here). -/
def get_projectile_specs (c : CannonState) : ProjectileData :=
  match get_kinetic_projectile ("armor_piercing") with
  | none =>
    { mass_kg := 0.05, velocity_kmh := c.projectile_speed * 3.6, diameter_mm := 8,
      length_mm := 0, material := "Tungsten Core", damage_base := none }
  | some base_projectile =>
    let damage_multiplier := 1 + ((c.cannon_level : ℝ) - 1) * 0.15
    let d0 :=
      match base_projectile.damage_base with
      | none => c.base_damage
      | some d => d
    { base_projectile with
      velocity_kmh := c.projectile_speed * 3.6
      damage_base := some (d0 * damage_multiplier * cannon_rarity_multiplier c.cannon_rarity) }

/-- UniversalCannon.fire (universal_cannon.py lines 112-163): rejected only
when the per-shot interval has not elapsed; otherwise one shot per barrel is
spawned (with per-barrel random spread supplied by the `spread_draws` oracle),
`last_shot_time` is set to now, the muzzle flash timer starts, and
`heat_buildup` increases by 2.  Note that fire() never consults
`heat_buildup`, `max_heat` or `is_overheated`. -/
def UniversalCannon_fire (c : CannonState) (pm : PMState) (current_time : ℝ)
    (target_angle : Option ℝ) (spread_draws : ℕ → ℝ) : Bool × CannonState × PMState :=
  if ¬ can_fire c current_time then (false, c, pm)
  else
    let base_angle :=
      match target_angle with
      | none => -(Real.pi / 2)
      | some a => a
    let projectile_data := get_projectile_specs c
    let speed := c.projectile_speed
    let pm1 := (List.range c.barrel_count).foldl (fun acc (barrel_index : ℕ) =>
      let barrel_offset_angle := Real.pi / 2
      let barrel_offset_x :=
        Real.cos (barrel_offset_angle + base_angle) * ((barrel_index : ℝ) - 0.5) *
          c.barrel_spacing
      let barrel_offset_y :=
        Real.sin (barrel_offset_angle + base_angle) * ((barrel_index : ℝ) - 0.5) *
          c.barrel_spacing
      let start_x := c.ship_x + barrel_offset_x
      let start_y := c.ship_y + barrel_offset_y - 20
      let shot_angle := base_angle + spread_draws barrel_index
      (add_kinetic_shot acc start_x start_y (Real.cos shot_angle * speed)
        (Real.sin shot_angle * speed) projectile_data true).1) pm
    let c1 :=
      { c with
        last_shot_time := current_time
        muzzle_flash_timer := 0.05
        heat_buildup := c.heat_buildup + 2 }
    (true, c1, pm1)

/-- UniversalCannon.update (universal_cannon.py lines 177-186): muzzle flash
timer decay and heat cooling at 20 units per second, floored at 0. -/
def UniversalCannon_update (c : CannonState) (delta_time : ℝ) : CannonState :=
  let c1 :=
    if c.muzzle_flash_timer > 0 then
      { c with muzzle_flash_timer := c.muzzle_flash_timer - delta_time }
    else c
  if c1.heat_buildup > 0 then
    { c1 with heat_buildup := max 0 (c1.heat_buildup - 20 * delta_time) }
  else c1

theorem foldl_shot_spawn_length (step : PMState → ℕ → PMState)
    (hstep : ∀ (pm : PMState) (i : ℕ),
      (step pm i).kinetic_shots.length = pm.kinetic_shots.length + 1) :
    ∀ (l : List ℕ) (pm : PMState),
      (l.foldl step pm).kinetic_shots.length = pm.kinetic_shots.length + l.length := by
  intro l
  induction l with
  | nil => intro pm; simp
  | cons i rest ih =>
    intro pm
    simp only [List.foldl_cons, List.length_cons]
    rw [ih (step pm i), hstep pm i]
    omega

/-- Counterexample for C5: a fully overheated rapid-fire cannon
(heat_buildup = max_heat = 100) whose shot interval has elapsed still fires:
fire() returns true and spawns both barrel projectiles.  The claim that every
fire() call while heat_buildup >= max_heat is rejected is therefore false. -/
theorem C5_counterexample_overheated_fire_succeeds :
    is_overheated ⟨0, 0, 1, "Common", 15, 8, 800, Real.pi / 48, 0, 0.125, 2, 15, 0, 100, 100⟩ ∧
    (UniversalCannon_fire ⟨0, 0, 1, "Common", 15, 8, 800, Real.pi / 48, 0, 0.125, 2, 15, 0, 100, 100⟩
      ⟨[], [], [], 1920, 1080, 100, 6.48⟩ 1 none (fun _ => 0)).1 = true ∧
    (UniversalCannon_fire ⟨0, 0, 1, "Common", 15, 8, 800, Real.pi / 48, 0, 0.125, 2, 15, 0, 100, 100⟩
      ⟨[], [], [], 1920, 1080, 100, 6.48⟩ 1 none (fun _ => 0)).2.2.kinetic_shots.length = 2 := by
  have hcf : can_fire ⟨0, 0, 1, "Common", 15, 8, 800, Real.pi / 48, 0, 0.125, 2, 15, 0, 100, 100⟩ 1 := by
    unfold can_fire
    norm_num
  refine ⟨le_refl 100, ?_, ?_⟩
  · unfold UniversalCannon_fire
    rw [if_neg (not_not_intro hcf)]
  · unfold UniversalCannon_fire
    rw [if_neg (not_not_intro hcf)]
    simp only
    rw [foldl_shot_spawn_length _ (fun pm i => by simp [add_kinetic_shot])]
    simp

/-- C5 amended: UniversalCannon.fire is gated only by the per-shot interval:
whenever `now - last_shot_time >= shot_interval` the call succeeds — returning
true, spawning one shot per barrel and adding 2 heat — regardless of
heat_buildup (even at or above max_heat); and whenever the interval has not
elapsed the call is rejected with no state change.  Overheat
(`is_overheated`) is tracked and reported but never enforced by fire(). -/
theorem C5_amended_fire_gated_only_by_interval (c : CannonState) (pm : PMState)
    (t : ℝ) (target_angle : Option ℝ) (spread_draws : ℕ → ℝ) :
    (can_fire c t →
      (UniversalCannon_fire c pm t target_angle spread_draws).1 = true ∧
      (UniversalCannon_fire c pm t target_angle spread_draws).2.1 =
        { c with
          last_shot_time := t
          muzzle_flash_timer := 0.05
          heat_buildup := c.heat_buildup + 2 } ∧
      (UniversalCannon_fire c pm t target_angle spread_draws).2.2.kinetic_shots.length =
        pm.kinetic_shots.length + c.barrel_count) ∧
    (¬ can_fire c t →
      UniversalCannon_fire c pm t target_angle spread_draws = (false, c, pm)) := by
  constructor
  · intro hcf
    unfold UniversalCannon_fire
    rw [if_neg (not_not_intro hcf)]
    refine ⟨rfl, rfl, ?_⟩
    simp only
    rw [foldl_shot_spawn_length _ (fun pm i => by simp [add_kinetic_shot])]
    simp
  · intro hncf
    unfold UniversalCannon_fire
    rw [if_pos hncf]

/-- Witness for the amended C5 at a concrete overheated cannon: the interval
has elapsed, so the call succeeds and spawns 2 shots even though
heat_buildup = max_heat. -/
theorem C5_amended_fire_gated_only_by_interval_witness :
    (UniversalCannon_fire ⟨0, 0, 1, "Common", 15, 8, 800, Real.pi / 48, 0, 0.125, 2, 15, 0, 100, 100⟩
      ⟨[], [], [], 1920, 1080, 100, 6.48⟩ 0.5 none (fun _ => 0)).1 = true ∧
    (UniversalCannon_fire ⟨0, 0, 1, "Common", 15, 8, 800, Real.pi / 48, 0, 0.125, 2, 15, 0, 100, 100⟩
      ⟨[], [], [], 1920, 1080, 100, 6.48⟩ 0.5 none (fun _ => 0)).2.2.kinetic_shots.length = 2 := by
  have h := (C5_amended_fire_gated_only_by_interval
    ⟨0, 0, 1, "Common", 15, 8, 800, Real.pi / 48, 0, 0.125, 2, 15, 0, 100, 100⟩
    ⟨[], [], [], 1920, 1080, 100, 6.48⟩ 0.5 none (fun _ => 0)).1
    (by unfold can_fire; norm_num)
  exact ⟨h.1, by simpa using h.2.2⟩
